import Mathlib

/-!
Verification development for the AI College Recommender's tool layer
(`src/main.py`): the two catalog query functions `get_college_data` and
`search_scholarships`, the pass-through tool `validate_input`, the tool
dispatcher `call_tool`, and the single-turn orchestration flow.

Modelling conventions:
* Python strings are Lean `String`s; `str.lower()` is a character-wise
  ASCII lowering (`lowerChars`), adequate for the embedded ASCII fixtures.
* Python's `needle in hay` substring test is `subOf` over lowered
  character lists.
* Python truthiness of an optional string/list argument (`if x:`) is
  `Option` presence combined with non-emptiness of the payload.
* A function that returns either a JSON-encoded list or a plain message
  string is modelled as `Sum String (List _)`: `Sum.inl` is the plain
  no-results message, `Sum.inr l` stands for `json.dumps(l)`.
* `list.sort(key=...)` (a stable sort) is modelled by Mathlib's stable
  `List.insertionSort`; stable sorts of the same list under the same
  total preorder coincide, so this is extensionally faithful.
* A raised Python exception is `Except.error`; `float` GPA fixtures are
  stored as tenths (`min_gpa_x10`), which is exact for every fixture and
  never consulted by any filter.
-/

/-- Character-wise ASCII lowering of a Python string, as a char list. -/
def lowerChars (s : String) : List Char :=
  s.data.map Char.toLower

/-- Python's substring test `n in h` on char lists: some tail of `h` starts
with `n`. -/
def subOf : List Char → List Char → Bool
  | n, [] => n.isEmpty
  | n, c :: t => n.isPrefixOf (c :: t) || subOf n t

/-- One row of the embedded college table (`colleges` in `get_college_data`). -/
structure CollegeRecord where
  name : String
  major : String
  rank : Int
  location : String
  scholarships : List String
  notes : String
  min_gpa_x10 : Nat
  skills_preferred : List String
deriving DecidableEq, Repr

def techUniversity : CollegeRecord :=
  { name := "Tech University", major := "Computer Science", rank := 5,
    location := "California, USA",
    scholarships := ["Merit Scholarship", "Research Grant"],
    notes := "Strong in AI and ML. High research output.",
    min_gpa_x10 := 38, skills_preferred := ["coding", "algorithms"] }

def globalBusinessSchool : CollegeRecord :=
  { name := "Global Business School", major := "Business", rank := 12,
    location := "New York, USA",
    scholarships := ["Dean's Scholarship", "Diversity Scholarship"],
    notes := "Excellent MBA program. Strong industry connections.",
    min_gpa_x10 := 35, skills_preferred := ["leadership", "finance"] }

def artsInstitute : CollegeRecord :=
  { name := "Arts Institute", major := "Fine Arts", rank := 8,
    location := "London, UK",
    scholarships := ["Creative Arts Award"],
    notes := "Renowned for painting and sculpture.",
    min_gpa_x10 := 30, skills_preferred := ["drawing", "painting"] }

def nationalEngineeringCollege : CollegeRecord :=
  { name := "National Engineering College", major := "Mechanical Engineering", rank := 25,
    location := "Hyderabad, India",
    scholarships := ["State Aid", "Innovation Fund"],
    notes := "Hands-on projects, good industry ties in India.",
    min_gpa_x10 := 32, skills_preferred := ["robotics", "CAD"] }

def greenEarthUniversity : CollegeRecord :=
  { name := "Green Earth University", major := "Environmental Science", rank := 30,
    location := "Oregon, USA",
    scholarships := ["Sustainability Grant"],
    notes := "Focus on renewable energy and conservation.",
    min_gpa_x10 := 33, skills_preferred := ["research", "environmental analysis"] }

def cityMedicalSchool : CollegeRecord :=
  { name := "City Medical School", major := "Medicine", rank := 3,
    location := "Boston, USA",
    scholarships := ["Medical Research Fellowship"],
    notes := "Highly competitive, excellent hospital affiliations.",
    min_gpa_x10 := 39, skills_preferred := ["biology", "chemistry", "research"] }

def eliteTechInstitute : CollegeRecord :=
  { name := "Elite Tech Institute", major := "Computer Science", rank := 2,
    location := "California, USA",
    scholarships := ["Presidential Scholarship", "Engineering Grant"],
    notes := "World-leading in AI and data science. Very competitive.",
    min_gpa_x10 := 40, skills_preferred := ["coding", "data structures", "machine learning"] }

def globalBusinessEconomics : CollegeRecord :=
  { name := "Global Business School", major := "Economics", rank := 10,
    location := "New York, USA",
    scholarships := ["Fellowship for Global Studies"],
    notes := "Strong quantitative economics program.",
    min_gpa_x10 := 37, skills_preferred := ["mathematics", "analytical thinking"] }

def iitBombay : CollegeRecord :=
  { name := "Indian Institute of Technology Bombay", major := "Computer Science", rank := 1,
    location := "Mumbai, India",
    scholarships := ["Institute Scholarship", "Private Grants"],
    notes := "Premier engineering institute in India.",
    min_gpa_x10 := 39, skills_preferred := ["coding", "algorithms", "problem solving"] }

def universityOfDelhi : CollegeRecord :=
  { name := "University of Delhi", major := "History", rank := 50,
    location := "Delhi, India",
    scholarships := ["University Grants"],
    notes := "Strong humanities programs.",
    min_gpa_x10 := 30, skills_preferred := ["research", "writing", "critical thinking"] }

/-- The embedded mock college table, in source order. -/
def colleges : List CollegeRecord :=
  [techUniversity, globalBusinessSchool, artsInstitute, nationalEngineeringCollege,
   greenEarthUniversity, cityMedicalSchool, eliteTechInstitute, globalBusinessEconomics,
   iitBombay, universityOfDelhi]

/-- The keyword arguments of `get_college_data`; `none` is Python `None`
(the default of every optional parameter). -/
structure CollegeQuery where
  major : String
  min_rank : Option Int := none
  max_rank : Option Int := none
  location_preference : Option String := none
  academic_skills : Option (List String) := none
  extra_curriculars : Option (List String) := none
deriving DecidableEq, Repr

/-- The loop body of `get_college_data`: `true` iff the record survives every
`continue` guard. `extra_curriculars` is never consulted, exactly as in the
source. -/
def collegeMatches (q : CollegeQuery) (c : CollegeRecord) : Bool :=
  (lowerChars c.major == lowerChars q.major) &&
  (match q.min_rank with
   | none => true
   | some mr => decide (mr ≤ c.rank)) &&
  (match q.max_rank with
   | none => true
   | some mr => decide (c.rank ≤ mr)) &&
  (match q.location_preference with
   | none => true
   | some lp => lp.data.isEmpty || subOf (lowerChars lp) (lowerChars c.location)) &&
  (match q.academic_skills with
   | none => true
   | some sk =>
       sk.isEmpty ||
       sk.any fun s => (c.skills_preferred.map lowerChars).contains (lowerChars s))

/-- The `results` list built by the scan loop of `get_college_data`. -/
def collegePassing (q : CollegeQuery) : List CollegeRecord :=
  colleges.filter (collegeMatches q)

def noCollegesMsg : String :=
  "No colleges found matching the criteria in the simulated database. Please try broadening your search or modifying criteria."

/-- The sort key of `results.sort(key=lambda x: x[\x22rank\x22])`. -/
def rankLe (a b : CollegeRecord) : Prop :=
  a.rank ≤ b.rank

instance : DecidableRel rankLe := fun a b => inferInstanceAs (Decidable (a.rank ≤ b.rank))

instance : IsTotal CollegeRecord rankLe := ⟨fun a b => Int.le_total a.rank b.rank⟩

instance : IsTrans CollegeRecord rankLe := ⟨fun _ _ _ h h' => le_trans h h'⟩

/-- `get_college_data` from `src/main.py`: filter, message on empty, else
stable-sort by rank and JSON-encode the first five. -/
def get_college_data (q : CollegeQuery) : Sum String (List CollegeRecord) :=
  let results := collegePassing q
  if results.isEmpty then Sum.inl noCollegesMsg
  else Sum.inr ((List.insertionSort rankLe results).take 5)

/-- One row of the embedded scholarship table in `search_scholarships`. -/
structure ScholarshipRecord where
  name : String
  college : String
  major : String
  criteria : String
  amount : String
deriving DecidableEq, Repr

def universityMeritScholarship : ScholarshipRecord :=
  { name := "University Merit Scholarship", college := "Tech University", major := "Any",
    criteria := "GPA 3.8+, leadership", amount := "$10,000/year" }

def aiResearchFellowship : ScholarshipRecord :=
  { name := "AI Research Fellowship", college := "Tech University", major := "Computer Science",
    criteria := "Research experience in AI, strong coding skills", amount := "$5,000 one-time" }

def globalLeaderAward : ScholarshipRecord :=
  { name := "Global Leader Award", college := "Global Business School", major := "Business",
    criteria := "Exceptional leadership, international experience", amount := "$15,000/year" }

def stemInnovatorGrant : ScholarshipRecord :=
  { name := "STEM Innovator Grant", college := "National Engineering College", major := "Engineering",
    criteria := "Demonstrated innovation in robotics or sustainability projects",
    amount := "$7,500 one-time" }

def environmentalChampionGrant : ScholarshipRecord :=
  { name := "Environmental Champion Grant", college := "Green Earth University",
    major := "Environmental Science",
    criteria := "Community involvement in environmental causes", amount := "$8,000/year" }

def generalExcellenceScholarship : ScholarshipRecord :=
  { name := "General Excellence Scholarship", college := "Any", major := "Any",
    criteria := "GPA 3.5+, strong essays", amount := "Varies" }

def deansExcellenceAward : ScholarshipRecord :=
  { name := "Dean's Excellence Award", college := "Elite Tech Institute", major := "Computer Science",
    criteria := "Top academic performance, competitive", amount := "$20,000/year" }

def indianStemScholarship : ScholarshipRecord :=
  { name := "Indian STEM Scholarship", college := "Indian Institute of Technology Bombay",
    major := "Any STEM",
    criteria := "High scores in JEE Advanced, research aptitude", amount := "Full Tuition" }

def humanitiesResearchGrant : ScholarshipRecord :=
  { name := "Humanities Research Grant", college := "University of Delhi", major := "History",
    criteria := "Excellent academic record in humanities, research proposal",
    amount := "Rs. 50,000 one-time" }

/-- The embedded mock scholarship table, in source order. -/
def scholarships : List ScholarshipRecord :=
  [universityMeritScholarship, aiResearchFellowship, globalLeaderAward, stemInnovatorGrant,
   environmentalChampionGrant, generalExcellenceScholarship, deansExcellenceAward,
   indianStemScholarship, humanitiesResearchGrant]

/-- The keyword arguments of `search_scholarships`. -/
structure ScholarshipQuery where
  college_name : Option String := none
  major : Option String := none
  academic_profile : Option String := none
  skills : Option (List String) := none
deriving DecidableEq, Repr

/-- The loop body of `search_scholarships`: `true` iff no guard sets
`match = False`. -/
def scholarshipMatches (q : ScholarshipQuery) (s : ScholarshipRecord) : Bool :=
  (match q.college_name with
   | none => true
   | some cn =>
       cn.data.isEmpty || (lowerChars cn == "any".data) ||
       subOf (lowerChars cn) (lowerChars s.college)) &&
  (match q.major with
   | none => true
   | some m =>
       m.data.isEmpty || (lowerChars m == "any".data) ||
       subOf (lowerChars m) (lowerChars s.major)) &&
  (match q.academic_profile with
   | none => true
   | some ap => ap.data.isEmpty || subOf (lowerChars ap) (lowerChars s.criteria)) &&
  (match q.skills with
   | none => true
   | some sk =>
       sk.isEmpty || sk.any fun x => subOf (lowerChars x) (lowerChars s.criteria))

/-- The `results` list built by the scan loop of `search_scholarships`. -/
def scholarshipPassing (q : ScholarshipQuery) : List ScholarshipRecord :=
  scholarships.filter (scholarshipMatches q)

def noScholarshipsMsg : String :=
  "No scholarships found matching your criteria in the simulated database. Try broadening your search."

/-- `search_scholarships` from `src/main.py`: filter, message on empty, else
JSON-encode the first three in scan order (no sort). -/
def search_scholarships (q : ScholarshipQuery) : Sum String (List ScholarshipRecord) :=
  let results := scholarshipPassing q
  if results.isEmpty then Sum.inl noScholarshipsMsg
  else Sum.inr (results.take 3)

/-- `validate_input` from `src/main.py`: returns `message_to_user` unchanged. -/
def validate_input (required_info : List String) (message_to_user : String) : String :=
  message_to_user

/-! ## Tool dispatch (`call_tool`)

`call_tool(tool_name, **kwargs)` forwards a keyword-argument bag to one of
the three registered functions. A kwargs bag is a key/value list; a raised
`TypeError`-style exception (missing required argument, unexpected keyword,
non-string/list/int payload where the tool body would fault) is
`Except.error`. No theorem below depends on ill-typed payload values. -/

inductive PyVal
  | str (s : String)
  | int (n : Int)
  | strList (l : List String)
deriving DecidableEq, Repr

abbrev Kwargs := List (String × PyVal)

inductive PyExn
  | typeError (msg : String)
  | valueError (msg : String)
deriving DecidableEq, Repr

/-- The Python-level value returned by a successful tool invocation:
either a plain message string or a JSON-encoded record list. -/
inductive ToolResult
  | msg (s : String)
  | collegesJson (l : List CollegeRecord)
  | scholarshipsJson (l : List ScholarshipRecord)
deriving DecidableEq, Repr

def asOptStr : Option PyVal → Except PyExn (Option String)
  | none => .ok none
  | some (.str s) => .ok (some s)
  | some _ => .error (.typeError "expected a string value")

def asOptInt : Option PyVal → Except PyExn (Option Int)
  | none => .ok none
  | some (.int n) => .ok (some n)
  | some _ => .error (.typeError "expected an integer value")

def asOptStrList : Option PyVal → Except PyExn (Option (List String))
  | none => .ok none
  | some (.strList l) => .ok (some l)
  | some _ => .error (.typeError "expected a list of strings")

def collegeParamNames : List String :=
  ["major", "min_rank", "max_rank", "location_preference", "academic_skills",
   "extra_curriculars"]

/-- Keyword binding for `get_college_data(**kwargs)`: `major` is required
(its absence is a `TypeError` at call time), every other declared parameter
defaults to `None`, and an undeclared keyword is a `TypeError`. -/
def bindCollegeQuery (kw : Kwargs) : Except PyExn CollegeQuery :=
  if ¬ (kw.all fun p => collegeParamNames.contains p.1) then
    .error (.typeError "get_college_data() got an unexpected keyword argument")
  else
    match kw.lookup "major" with
    | none => .error (.typeError "get_college_data() missing 1 required positional argument: major")
    | some (.str m) => do
        let minr ← asOptInt (kw.lookup "min_rank")
        let maxr ← asOptInt (kw.lookup "max_rank")
        let lp ← asOptStr (kw.lookup "location_preference")
        let sk ← asOptStrList (kw.lookup "academic_skills")
        let ec ← asOptStrList (kw.lookup "extra_curriculars")
        .ok { major := m, min_rank := minr, max_rank := maxr,
              location_preference := lp, academic_skills := sk,
              extra_curriculars := ec }
    | some _ => .error (.typeError "major must be a string")

def scholarshipParamNames : List String :=
  ["college_name", "major", "academic_profile", "skills"]

/-- Keyword binding for `search_scholarships(**kwargs)`: no required
parameter. -/
def bindScholarshipQuery (kw : Kwargs) : Except PyExn ScholarshipQuery :=
  if ¬ (kw.all fun p => scholarshipParamNames.contains p.1) then
    .error (.typeError "search_scholarships() got an unexpected keyword argument")
  else do
    let cn ← asOptStr (kw.lookup "college_name")
    let m ← asOptStr (kw.lookup "major")
    let ap ← asOptStr (kw.lookup "academic_profile")
    let sk ← asOptStrList (kw.lookup "skills")
    .ok { college_name := cn, major := m, academic_profile := ap, skills := sk }

def validateParamNames : List String :=
  ["required_info", "message_to_user"]

/-- Keyword binding for `validate_input(**kwargs)`: both parameters are
required. -/
def bindValidateArgs (kw : Kwargs) : Except PyExn (List String × String) :=
  if ¬ (kw.all fun p => validateParamNames.contains p.1) then
    .error (.typeError "validate_input() got an unexpected keyword argument")
  else
    match kw.lookup "required_info", kw.lookup "message_to_user" with
    | some (.strList ri), some (.str msg) => .ok (ri, msg)
    | none, _ => .error (.typeError "validate_input() missing required argument: required_info")
    | _, none => .error (.typeError "validate_input() missing required argument: message_to_user")
    | _, _ => .error (.typeError "validate_input() got ill-typed arguments")

/-- `call_tool` from `src/main.py`: look the name up in the fixed
three-entry table; on a hit invoke the tool with the kwargs expanded
(exceptions propagate as `.error`), on a miss return the error STRING as a
normal result. -/
def call_tool (tool_name : String) (kwargs : Kwargs) : Except PyExn ToolResult :=
  if tool_name = "get_college_data" then
    (bindCollegeQuery kwargs).map fun q =>
      match get_college_data q with
      | .inl m => .msg m
      | .inr l => .collegesJson l
  else if tool_name = "search_scholarships" then
    (bindScholarshipQuery kwargs).map fun q =>
      match search_scholarships q with
      | .inl m => .msg m
      | .inr l => .scholarshipsJson l
  else if tool_name = "validate_input" then
    (bindValidateArgs kwargs).map fun p => .msg (validate_input p.1 p.2)
  else
    .ok (.msg ("Error: Tool '" ++ tool_name ++ "' not found."))

/-! ## Single-turn orchestration

The `if user_query:` block of `src/main.py`, lines 224-267. The Model
Gateway is opaque: the turn is parameterised by the model's first response
and by its follow-up response to the function result. Observable actions
(`send_message` calls and `call_tool` invocations) are recorded as an event
trace; the whole block runs inside `try/except`, so an exception raised by
`call_tool` aborts the turn before the second `send_message` and is shown
as an apology message. -/

inductive ModelResponse
  | text (s : String)
  | functionCall (tool_name : String) (args : Kwargs)
deriving DecidableEq, Repr

inductive SentPayload
  | userText (s : String)
  | functionResult (tool_name : String) (r : ToolResult)
deriving DecidableEq, Repr

inductive TurnEvent
  | send (p : SentPayload)
  | dispatch (tool_name : String) (args : Kwargs)
deriving DecidableEq, Repr

structure TurnOutcome where
  events : List TurnEvent
  appendedModelText : String
deriving DecidableEq, Repr

def exnText : PyExn → String
  | .typeError m => m
  | .valueError m => m

/-- The apology fallback of the `except` handler (line 266-267). -/
def errorReplyText (e : PyExn) : String :=
  "I apologize, I encountered an error: " ++ exnText e ++
    ". Please try again or rephrase your request."

/-- One user turn of the orchestration loop. `first` is the Gateway's reply
to the user query; `followup` is its reply to the function result (consulted
only when a tool was dispatched and did not raise). Reading `.text` off a
follow-up that is itself a function call raises inside the `try`, after both
sends already happened. -/
def runTurn (userQuery : String) (first followup : ModelResponse) : TurnOutcome :=
  match first with
  | .text t =>
      { events := [.send (.userText userQuery)], appendedModelText := t }
  | .functionCall n args =>
      match call_tool n args with
      | .error e =>
          { events := [.send (.userText userQuery), .dispatch n args],
            appendedModelText := errorReplyText e }
      | .ok r =>
          match followup with
          | .text t =>
              { events := [.send (.userText userQuery), .dispatch n args,
                           .send (.functionResult n r)],
                appendedModelText := t }
          | .functionCall _ _ =>
              { events := [.send (.userText userQuery), .dispatch n args,
                           .send (.functionResult n r)],
                appendedModelText :=
                  errorReplyText (.valueError "Could not convert function call part to text") }

def sendCount (evs : List TurnEvent) : Nat :=
  evs.countP fun e => match e with | .send _ => true | _ => false

def dispatchCount (evs : List TurnEvent) : Nat :=
  evs.countP fun e => match e with | .dispatch _ _ => true | _ => false

/-! ## Bridge lemmas: the executable string tests versus their
mathematical readings -/

theorem isPrefixOf_eq_true_iff :
    ∀ (n h : List Char), n.isPrefixOf h = true ↔ ∃ t, h = n ++ t
  | [], h => by simp [List.isPrefixOf]
  | a :: n, [] => by simp [List.isPrefixOf]
  | a :: n, b :: h => by
    simp only [List.isPrefixOf, Bool.and_eq_true, beq_iff_eq,
      isPrefixOf_eq_true_iff n h, List.cons_append, List.cons.injEq]
    constructor
    · rintro ⟨rfl, t, rfl⟩
      exact ⟨t, rfl, rfl⟩
    · rintro ⟨t, rfl, rfl⟩
      exact ⟨rfl, t, rfl⟩

theorem subOf_eq_true_iff :
    ∀ (n h : List Char), subOf n h = true ↔ ∃ p s, h = p ++ n ++ s
  | n, [] => by
    simp only [subOf, List.isEmpty_iff]
    constructor
    · rintro rfl
      exact ⟨[], [], rfl⟩
    · rintro ⟨p, s, hps⟩
      rcases List.append_eq_nil.mp (List.append_eq_nil.mp hps.symm).1 with ⟨-, h2⟩
      exact h2
  | n, c :: h => by
    simp only [subOf, Bool.or_eq_true, isPrefixOf_eq_true_iff, subOf_eq_true_iff n h]
    constructor
    · rintro (⟨t, ht⟩ | ⟨p, s, rfl⟩)
      · exact ⟨[], t, by simpa using ht⟩
      · exact ⟨c :: p, s, rfl⟩
    · rintro ⟨p, s, hps⟩
      cases p with
      | nil => exact Or.inl ⟨s, by simpa using hps⟩
      | cons x p =>
        rcases List.cons.injEq .. ▸ hps with ⟨-, h2⟩
        exact Or.inr ⟨p, s, h2⟩

/-! ## Spec-side pass conditions (transcribed from the claims) -/

/-- The college pass condition exactly as the claim states it: major equal
case-insensitively, optional inclusive rank bounds, optional case-insensitive
location substring, and OR-semantics skill overlap by case-insensitive
equality. -/
def CollegeSpecCond (q : CollegeQuery) (c : CollegeRecord) : Prop :=
  lowerChars c.major = lowerChars q.major ∧
  (q.min_rank = none ∨ ∃ mr, q.min_rank = some mr ∧ mr ≤ c.rank) ∧
  (q.max_rank = none ∨ ∃ mr, q.max_rank = some mr ∧ c.rank ≤ mr) ∧
  (q.location_preference = none ∨
     ∃ lp, q.location_preference = some lp ∧
       ∃ p s, lowerChars c.location = p ++ lowerChars lp ++ s) ∧
  (q.academic_skills = none ∨ q.academic_skills = some [] ∨
     ∃ sk, q.academic_skills = some sk ∧
       ∃ x ∈ sk, lowerChars x ∈ c.skills_preferred.map lowerChars)

theorem collegeMatches_iff (q : CollegeQuery) (c : CollegeRecord) :
    collegeMatches q c = true ↔ CollegeSpecCond q c := by
  unfold collegeMatches CollegeSpecCond
  simp only [Bool.and_eq_true, beq_iff_eq, and_assoc]
  refine and_congr Iff.rfl (and_congr ?_ (and_congr ?_ (and_congr ?_ ?_)))
  · cases q.min_rank with
    | none => simp
    | some mr => simp
  · cases q.max_rank with
    | none => simp
    | some mr => simp
  · cases q.location_preference with
    | none => simp
    | some lp =>
      rw [Bool.or_eq_true, subOf_eq_true_iff]
      constructor
      · rintro (he | hsub)
        · have hd : lp.data = [] := List.isEmpty_iff.mp he
          exact Or.inr ⟨lp, rfl, lowerChars c.location, [], by simp [lowerChars, hd]⟩
        · exact Or.inr ⟨lp, rfl, hsub⟩
      · rintro (hn | ⟨lp', he, hsub⟩)
        · cases hn
        · cases Option.some.inj he
          exact Or.inr hsub
  · cases q.academic_skills with
    | none => simp
    | some sk =>
      rw [Bool.or_eq_true, List.any_eq_true]
      constructor
      · rintro (he | ⟨x, hx, hcont⟩)
        · exact Or.inr (Or.inl (by rw [List.isEmpty_iff.mp he]))
        · exact Or.inr (Or.inr ⟨sk, rfl, x, hx, by simpa using hcont⟩)
      · rintro (hn | he | ⟨sk', hsk, x, hx, hmem⟩)
        · cases hn
        · cases Option.some.inj he
          exact Or.inl rfl
        · cases Option.some.inj hsk
          exact Or.inr ⟨x, hx, by simpa using hmem⟩

/-- The scholarship pass condition exactly as the claim states it: optional
college/major with sentinel "any" and case-insensitive substring match,
optional substring match of the profile against the criteria text, and
OR-semantics substring match of the skills against the criteria text. -/
def ScholarshipSpecCond (q : ScholarshipQuery) (s : ScholarshipRecord) : Prop :=
  (q.college_name = none ∨
     ∃ cn, q.college_name = some cn ∧
       (lowerChars cn = "any".data ∨
        ∃ p t, lowerChars s.college = p ++ lowerChars cn ++ t)) ∧
  (q.major = none ∨
     ∃ m, q.major = some m ∧
       (lowerChars m = "any".data ∨
        ∃ p t, lowerChars s.major = p ++ lowerChars m ++ t)) ∧
  (q.academic_profile = none ∨
     ∃ ap, q.academic_profile = some ap ∧
       ∃ p t, lowerChars s.criteria = p ++ lowerChars ap ++ t) ∧
  (q.skills = none ∨ q.skills = some [] ∨
     ∃ sk, q.skills = some sk ∧
       ∃ x ∈ sk, ∃ p t, lowerChars s.criteria = p ++ lowerChars x ++ t)

theorem scholarshipMatches_iff (q : ScholarshipQuery) (s : ScholarshipRecord) :
    scholarshipMatches q s = true ↔ ScholarshipSpecCond q s := by
  unfold scholarshipMatches ScholarshipSpecCond
  simp only [Bool.and_eq_true, and_assoc]
  refine and_congr ?_ (and_congr ?_ (and_congr ?_ ?_))
  · cases q.college_name with
    | none => simp
    | some cn =>
      rw [Bool.or_eq_true, Bool.or_eq_true, beq_iff_eq, subOf_eq_true_iff]
      constructor
      · rintro ((he | hany) | hsub)
        · have hd : cn.data = [] := List.isEmpty_iff.mp he
          exact Or.inr ⟨cn, rfl, Or.inr ⟨lowerChars s.college, [], by simp [lowerChars, hd]⟩⟩
        · exact Or.inr ⟨cn, rfl, Or.inl hany⟩
        · exact Or.inr ⟨cn, rfl, Or.inr hsub⟩
      · rintro (hn | ⟨cn', he, hany | hsub⟩)
        · cases hn
        · cases Option.some.inj he
          exact Or.inl (Or.inr hany)
        · cases Option.some.inj he
          exact Or.inr hsub
  · cases q.major with
    | none => simp
    | some m =>
      rw [Bool.or_eq_true, Bool.or_eq_true, beq_iff_eq, subOf_eq_true_iff]
      constructor
      · rintro ((he | hany) | hsub)
        · have hd : m.data = [] := List.isEmpty_iff.mp he
          exact Or.inr ⟨m, rfl, Or.inr ⟨lowerChars s.major, [], by simp [lowerChars, hd]⟩⟩
        · exact Or.inr ⟨m, rfl, Or.inl hany⟩
        · exact Or.inr ⟨m, rfl, Or.inr hsub⟩
      · rintro (hn | ⟨m', he, hany | hsub⟩)
        · cases hn
        · cases Option.some.inj he
          exact Or.inl (Or.inr hany)
        · cases Option.some.inj he
          exact Or.inr hsub
  · cases q.academic_profile with
    | none => simp
    | some ap =>
      rw [Bool.or_eq_true, subOf_eq_true_iff]
      constructor
      · rintro (he | hsub)
        · have hd : ap.data = [] := List.isEmpty_iff.mp he
          exact Or.inr ⟨ap, rfl, lowerChars s.criteria, [], by simp [lowerChars, hd]⟩
        · exact Or.inr ⟨ap, rfl, hsub⟩
      · rintro (hn | ⟨ap', he, hsub⟩)
        · cases hn
        · cases Option.some.inj he
          exact Or.inr hsub
  · cases q.skills with
    | none => simp
    | some sk =>
      rw [Bool.or_eq_true, List.any_eq_true]
      constructor
      · rintro (he | ⟨x, hx, hsub⟩)
        · exact Or.inr (Or.inl (by rw [List.isEmpty_iff.mp he]))
        · exact Or.inr (Or.inr ⟨sk, rfl, x, hx, (subOf_eq_true_iff _ _).mp hsub⟩)
      · rintro (hn | he | ⟨sk', hsk, x, hx, hsub⟩)
        · cases hn
        · cases Option.some.inj he
          exact Or.inl rfl
        · cases Option.some.inj hsk
          exact Or.inr ⟨x, hx, (subOf_eq_true_iff _ _).mpr hsub⟩

/-! ## Claim theorems -/

/-- C1: for every call to `get_college_data`, a college record is in the
passing set iff its major equals the queried major case-insensitively, AND
(min_rank absent OR rank ≥ min_rank), AND (max_rank absent OR
rank ≤ max_rank), AND (location_preference absent OR a case-insensitive
substring of the record's location), AND (academic_skills absent or empty
OR at least one supplied skill case-insensitively equals a preferred skill
— OR semantics). -/
theorem college_filter_iff_spec (q : CollegeQuery) (c : CollegeRecord)
    (hc : c ∈ colleges) : c ∈ collegePassing q ↔ CollegeSpecCond q c := by
  rw [collegePassing, List.mem_filter]
  simp [hc, collegeMatches_iff]

theorem college_filter_iff_spec_witness :
    techUniversity ∈ collegePassing { major := "computer science" } ↔
      CollegeSpecCond { major := "computer science" } techUniversity :=
  college_filter_iff_spec { major := "computer science" } techUniversity (by decide)

/-- C2: for every call to `search_scholarships`, a record passes iff the
optional college name (sentinel "any"), optional major (sentinel "any"),
optional academic profile, and optional skills (OR semantics) all match by
case-insensitive substring as the claim states; and whenever any record
passes, the result is exactly the first 3 passing records in scan order. -/
theorem scholarship_filter_iff_spec (q : ScholarshipQuery) (s : ScholarshipRecord)
    (hs : s ∈ scholarships) :
    (s ∈ scholarshipPassing q ↔ ScholarshipSpecCond q s) ∧
    (scholarshipPassing q ≠ [] →
      search_scholarships q = Sum.inr ((scholarshipPassing q).take 3)) := by
  constructor
  · rw [scholarshipPassing, List.mem_filter]
    simp [hs, scholarshipMatches_iff]
  · intro hne
    simp [search_scholarships, List.isEmpty_iff, hne]

theorem scholarship_filter_iff_spec_witness :
    (universityMeritScholarship ∈
        scholarshipPassing { college_name := some "Tech University" } ↔
      ScholarshipSpecCond { college_name := some "Tech University" }
        universityMeritScholarship) ∧
    (scholarshipPassing { college_name := some "Tech University" } ≠ [] →
      search_scholarships { college_name := some "Tech University" } =
        Sum.inr ((scholarshipPassing { college_name := some "Tech University" }).take 3)) :=
  scholarship_filter_iff_spec { college_name := some "Tech University" }
    universityMeritScholarship (by decide)

/-- C3: every successful (`Sum.inr`) result of `get_college_data` is sorted
by ascending rank and contains at most 5 entries. -/
theorem college_results_sorted_capped (q : CollegeQuery) (l : List CollegeRecord)
    (h : get_college_data q = Sum.inr l) :
    l.Pairwise rankLe ∧ l.length ≤ 5 := by
  have hl : l = (List.insertionSort rankLe (collegePassing q)).take 5 := by
    by_cases he : (collegePassing q).isEmpty = true
    · simp [get_college_data, he] at h
    · simp [get_college_data, he] at h
      exact h.symm
  subst hl
  exact ⟨List.Pairwise.sublist (List.take_sublist _ _)
      (List.sorted_insertionSort rankLe _),
    List.length_take_le _ _⟩

theorem college_results_sorted_capped_witness :
    [iitBombay, eliteTechInstitute, techUniversity].Pairwise rankLe ∧
      [iitBombay, eliteTechInstitute, techUniversity].length ≤ 5 :=
  college_results_sorted_capped { major := "Computer Science" }
    [iitBombay, eliteTechInstitute, techUniversity] (by decide)

/-- C4: zero matching records yield the plain human-readable message
(`Sum.inl`), never an empty structured list; at least one matching record
yields a structured (`Sum.inr`) nonempty list — for both query functions. -/
theorem dual_shape_results (qc : CollegeQuery) (qs : ScholarshipQuery) :
    (collegePassing qc = [] → get_college_data qc = Sum.inl noCollegesMsg) ∧
    (collegePassing qc ≠ [] → ∃ l, get_college_data qc = Sum.inr l ∧ l ≠ []) ∧
    (scholarshipPassing qs = [] → search_scholarships qs = Sum.inl noScholarshipsMsg) ∧
    (scholarshipPassing qs ≠ [] → ∃ l, search_scholarships qs = Sum.inr l ∧ l ≠ []) := by
  refine ⟨fun h => by simp [get_college_data, h], fun h => ?_,
    fun h => by simp [search_scholarships, h], fun h => ?_⟩
  · have hsort : List.insertionSort rankLe (collegePassing qc) ≠ [] := by
      intro hnil
      exact h (List.Perm.eq_nil (hnil ▸ List.perm_insertionSort rankLe _).symm)
    refine ⟨(List.insertionSort rankLe (collegePassing qc)).take 5,
      by simp [get_college_data, List.isEmpty_iff, h], ?_⟩
    simp [List.take_eq_nil_iff, hsort]
  · refine ⟨(scholarshipPassing qs).take 3,
      by simp [search_scholarships, List.isEmpty_iff, h], ?_⟩
    simp [List.take_eq_nil_iff, h]

theorem dual_shape_results_witness :
    (∃ l, get_college_data { major := "Computer Science" } = Sum.inr l ∧ l ≠ []) ∧
    (∃ l, search_scholarships {} = Sum.inr l ∧ l ≠ []) :=
  ⟨(dual_shape_results { major := "Computer Science" } {}).2.1 (by decide),
   (dual_shape_results { major := "Computer Science" } {}).2.2.2 (by decide)⟩

/-- C5 counterexample: the claim fails — with `college_name` set to the
non-sentinel "Tech University", the scholarship whose college field is the
sentinel "Any" does NOT satisfy the college filter, and the returned list
omits it. -/
theorem any_college_excluded_cex :
    scholarshipMatches { college_name := some "Tech University" }
        generalExcellenceScholarship = false ∧
    search_scholarships { college_name := some "Tech University" } =
      Sum.inr [universityMeritScholarship, aiResearchFellowship] := by
  decide

/-- C5 amended: the sentinel is handled only on the query side. The record
with college "Any" passes the college filter of a college-name-only query
iff the queried name is empty, lowercases to "any", or is a case-insensitive
substring of the literal field value "Any" — a specific name such as
"Tech University" therefore excludes it. -/
theorem any_college_sentinel_literal (cn : String) :
    generalExcellenceScholarship ∈ scholarshipPassing { college_name := some cn } ↔
      (cn.data = [] ∨ lowerChars cn = "any".data ∨
        ∃ p t, ("any".data : List Char) = p ++ lowerChars cn ++ t) := by
  have hlow : lowerChars generalExcellenceScholarship.college = "any".data := by decide
  have hmem : generalExcellenceScholarship ∈ scholarships := by decide
  rw [scholarshipPassing, List.mem_filter]
  simp only [hmem, true_and, scholarshipMatches, hlow, Bool.and_true, Bool.and_eq_true,
    Bool.or_eq_true, beq_iff_eq, List.isEmpty_iff, subOf_eq_true_iff, or_assoc]

/-- C6: dispatching any unregistered tool name returns (rather than raises)
an error string that contains the offending name. -/
theorem unknown_tool_error_string (tool_name : String) (kwargs : Kwargs)
    (h : tool_name ∉ ["get_college_data", "search_scholarships", "validate_input"]) :
    call_tool tool_name kwargs =
      Except.ok (ToolResult.msg ("Error: Tool '" ++ tool_name ++ "' not found.")) ∧
    ∃ p t, ("Error: Tool '" ++ tool_name ++ "' not found.").data =
        p ++ tool_name.data ++ t := by
  have h1 : ¬ tool_name = "get_college_data" := fun he => h (by simp [he])
  have h2 : ¬ tool_name = "search_scholarships" := fun he => h (by simp [he])
  have h3 : ¬ tool_name = "validate_input" := fun he => h (by simp [he])
  refine ⟨by rw [call_tool, if_neg h1, if_neg h2, if_neg h3],
    "Error: Tool '".data, "' not found.".data, ?_⟩
  simp [String.data_append]

theorem unknown_tool_error_string_witness :
    call_tool "fetch_weather" [] =
      Except.ok (ToolResult.msg ("Error: Tool '" ++ "fetch_weather" ++ "' not found.")) ∧
    ∃ p t, ("Error: Tool '" ++ "fetch_weather" ++ "' not found.").data =
        p ++ "fetch_weather".data ++ t :=
  unknown_tool_error_string "fetch_weather" [] (by decide)

/-- C8: `major` is mandatory for the college search — dispatching
`get_college_data` with a kwargs bag lacking "major" raises (the error
propagates as `Except.error`), it does not produce a tool-level result
string. -/
theorem missing_major_raises (kwargs : Kwargs)
    (h : kwargs.lookup "major" = none) :
    ∃ e, call_tool "get_college_data" kwargs = Except.error e := by
  have hb : ∃ e, bindCollegeQuery kwargs = Except.error e := by
    rw [bindCollegeQuery]
    by_cases hall : (kwargs.all fun p => collegeParamNames.contains p.1) = true
    · rw [if_neg (not_not_intro hall), h]
      exact ⟨_, rfl⟩
    · rw [if_pos hall]
      exact ⟨_, rfl⟩
  obtain ⟨e, he⟩ := hb
  exact ⟨e, by rw [call_tool, if_pos rfl, he]; rfl⟩

theorem missing_major_raises_witness :
    ∃ e, call_tool "get_college_data" [] = Except.error e :=
  missing_major_raises [] (by decide)

/-- C9: `validate_input` returns `message_to_user` unchanged, and the result
does not depend on `required_info`. -/
theorem validate_input_passthrough (ri ri' : List String) (msg : String) :
    validate_input ri msg = msg ∧ validate_input ri msg = validate_input ri' msg :=
  ⟨rfl, rfl⟩

/-- C10: the functions only select from the fixed catalogs — every element
of a successful college result is one of the 10 embedded college records,
and every element of a successful scholarship result is one of the 9
embedded scholarship records. -/
theorem results_from_catalog (qc : CollegeQuery) (qs : ScholarshipQuery) :
    colleges.length = 10 ∧ scholarships.length = 9 ∧
    (∀ l, get_college_data qc = Sum.inr l → ∀ c ∈ l, c ∈ colleges) ∧
    (∀ l, search_scholarships qs = Sum.inr l → ∀ s ∈ l, s ∈ scholarships) := by
  refine ⟨rfl, rfl, ?_, ?_⟩
  · intro l hl c hc
    have hl' : l = (List.insertionSort rankLe (collegePassing qc)).take 5 := by
      by_cases he : (collegePassing qc).isEmpty = true
      · simp [get_college_data, he] at hl
      · simp [get_college_data, he] at hl
        exact hl.symm
    subst hl'
    have h2 : c ∈ collegePassing qc :=
      (List.perm_insertionSort rankLe _).subset (List.take_subset _ _ hc)
    exact List.mem_of_mem_filter h2
  · intro l hl s hs
    have hl' : l = (scholarshipPassing qs).take 3 := by
      by_cases he : (scholarshipPassing qs).isEmpty = true
      · simp [search_scholarships, he] at hl
      · simp [search_scholarships, he] at hl
        exact hl.symm
    subst hl'
    exact List.mem_of_mem_filter (List.take_subset _ _ hs)

theorem results_from_catalog_witness :
    iitBombay ∈ colleges :=
  (results_from_catalog { major := "Computer Science" } {}).2.2.1
    [iitBombay, eliteTechInstitute, techUniversity] (by decide) iitBombay (by decide)

/-- C7 counterexample: the claim fails — in a turn whose first model
response requests `get_college_data` with an empty argument bag, the tool
call raises, the `except` handler fires, and only ONE `send_message` call is
performed (not two), though the dispatcher was invoked once. -/
theorem single_tool_turn_cex :
    dispatchCount (runTurn "hi" (ModelResponse.functionCall "get_college_data" [])
        (ModelResponse.text "ok")).events = 1 ∧
    sendCount (runTurn "hi" (ModelResponse.functionCall "get_college_data" [])
        (ModelResponse.text "ok")).events = 1 := by
  decide

/-- C7 amended: in any turn whose first model response is a function call,
exactly one dispatcher invocation occurs (chained tool calls are never
dispatched); exactly two sendMessage calls occur when the tool invocation
returns normally, but only the initial one when it raises (the exception is
caught at the turn boundary). -/
theorem single_tool_turn_counts (q n : String) (args : Kwargs)
    (followup : ModelResponse) :
    dispatchCount (runTurn q (ModelResponse.functionCall n args) followup).events = 1 ∧
    (∀ r, call_tool n args = Except.ok r →
      sendCount (runTurn q (ModelResponse.functionCall n args) followup).events = 2) ∧
    (∀ e, call_tool n args = Except.error e →
      sendCount (runTurn q (ModelResponse.functionCall n args) followup).events = 1) := by
  refine ⟨?_, fun r hr => ?_, fun e he => ?_⟩
  · rcases hct : call_tool n args with e | r
    · simp [runTurn, hct, dispatchCount, List.countP_cons, List.countP_nil]
    · cases followup <;>
        simp [runTurn, hct, dispatchCount, List.countP_cons, List.countP_nil]
  · cases followup <;>
      simp [runTurn, hr, sendCount, List.countP_cons, List.countP_nil]
  · simp [runTurn, he, sendCount, List.countP_cons, List.countP_nil]

theorem single_tool_turn_counts_witness :
    sendCount (runTurn "find scholarships"
      (ModelResponse.functionCall "search_scholarships" [])
      (ModelResponse.text "done")).events = 2 :=
  (single_tool_turn_counts "find scholarships" "search_scholarships" []
      (ModelResponse.text "done")).2.1
    (ToolResult.scholarshipsJson
      [universityMeritScholarship, aiResearchFellowship, globalLeaderAward])
    (by rfl)
